import Mathlib

/-!
Verification of the Ultimate-Colab keep-alive repository against its
natural-language specification.  Each python source file is shallowly
embedded in its own namespace; machine reals (python floats used for
weights, ages, sleep intervals) are modelled as exact rationals, page
sources as lists of characters, and fallible driver calls as explicit
`Except`/`Option` inputs.
-/

set_option maxRecDepth 4000

/-! ## Substring machinery

Python's `in` operator on lowercased page text is modelled on
`List Char`: `listPref p s` is "s starts with p" and `listSub p s`
is "p occurs as a contiguous substring of s". -/

/-- `listPref p s = true` iff `s` starts with `p` (element-wise `==`). -/
def listPref : List Char → List Char → Bool
  | [], _ => true
  | _ :: _, [] => false
  | a :: as, b :: bs => a == b && listPref as bs

/-- `listSub p s = true` iff `p` occurs contiguously inside `s`
(python's `p in s`). -/
def listSub (p : List Char) : List Char → Bool
  | [] => listPref p []
  | c :: t => listPref p (c :: t) || listSub p t

theorem listPref_iff (p s : List Char) :
    listPref p s = true ↔ ∃ t, s = p ++ t := by
  induction p generalizing s with
  | nil => simp [listPref]
  | cons a as ih =>
    cases s with
    | nil => simp [listPref]
    | cons b bs =>
      simp only [listPref, Bool.and_eq_true, beq_iff_eq, ih]
      constructor
      · rintro ⟨rfl, t, rfl⟩; exact ⟨t, rfl⟩
      · rintro ⟨t, h⟩
        cases h
        exact ⟨rfl, t, rfl⟩

theorem listSub_iff (p s : List Char) :
    listSub p s = true ↔ ∃ l t, s = l ++ p ++ t := by
  induction s with
  | nil =>
    simp only [listSub, listPref_iff]
    constructor
    · rintro ⟨t, h⟩
      exact ⟨[], t, by simpa using h⟩
    · rintro ⟨l, t, h⟩
      have hl : l = [] := by
        cases l with
        | nil => rfl
        | cons x xs => simp at h
      subst hl
      exact ⟨t, by simpa using h⟩
  | cons c cs ih =>
    simp only [listSub, Bool.or_eq_true, listPref_iff, ih]
    constructor
    · rintro (⟨t, h⟩ | ⟨l, t, h⟩)
      · exact ⟨[], t, by simpa using h⟩
      · exact ⟨c :: l, t, by simp [h]⟩
    · rintro ⟨l, t, h⟩
      cases l with
      | nil => exact Or.inl ⟨t, by simpa using h⟩
      | cons x xs =>
        simp only [List.cons_append, List.cons.injEq] at h
        exact Or.inr ⟨xs, t, h.2⟩

theorem listSub_trans {a b c : List Char} (hab : listSub a b = true)
    (hbc : listSub b c = true) : listSub a c = true := by
  rw [listSub_iff] at hab hbc ⊢
  obtain ⟨l₁, t₁, rfl⟩ := hab
  obtain ⟨l₂, t₂, rfl⟩ := hbc
  exact ⟨l₂ ++ l₁, t₁ ++ t₂, by simp⟩

/-- Effects a health classification may perform on the driver
handle. -/
inductive Effect where
  | readPage
  | click
  deriving Repr, DecidableEq

/-! ## colab_aggressive_keeper.py -/

namespace ColabAggressiveKeeper

/-- Mutable fields of `ColabAggressiveKeeper` touched by the survival
loop.  `sessionAge` stands for `(now - self.session_start)` in seconds
at the point the loop reads it; `create_new_session` resets it to `0`
by setting `session_start = now`. -/
structure KeeperState where
  sessionCounter : ℕ
  newSessions : ℕ
  sessionAge : ℚ
  reconnects : ℕ
  refreshes : ℕ
  consecutiveFailures : ℕ
  deriving Repr, DecidableEq

/-- `create_new_session` (lines 152-191): on success it increments
`new_sessions` and `session_counter` and resets `session_start` to now
(age `0`); on any failure it returns having changed none of these
counters (the stats update is the last step before `return True`).
`ok` is the returned boolean. -/
def create_new_session (st : KeeperState) (ok : Bool) : KeeperState :=
  if ok then
    { st with
      sessionCounter := st.sessionCounter + 1
      newSessions := st.newSessions + 1
      sessionAge := 0 }
  else st

/-- The age test of survival-loop step 1 (line 423):
`session_age.total_seconds() > 11 * 3600`. -/
def shouldRotate (ageSeconds : ℚ) : Bool :=
  decide (ageSeconds > 11 * 3600)

/-- Survival-loop step 1 (lines 421-427): rotate the session when it is
over 11 hours old; on rotation failure continue with the old session. -/
def rotationStep (st : KeeperState) (ok : Bool) : KeeperState :=
  if shouldRotate st.sessionAge then create_new_session st ok else st

/-- Survival-loop step 2-3 (lines 428-446): branch on the status string
returned by `check_colab_status`; `"disconnected"` bumps `reconnects`
and the failure streak, `"connected"` clears the streak, anything else
(`"error"`, `"no_driver"`) bumps the streak. -/
def statusStep (st : KeeperState) (status : String) : KeeperState :=
  if status = "disconnected" then
    { st with
      reconnects := st.reconnects + 1
      consecutiveFailures := st.consecutiveFailures + 1 }
  else if status = "connected" then
    { st with consecutiveFailures := 0 }
  else
    { st with consecutiveFailures := st.consecutiveFailures + 1 }

/-- Survival-loop step 4 (lines 451-461): every 10th cycle refresh the
page; a refresh that throws is swallowed and counts nothing. -/
def refreshStep (st : KeeperState) (cycle : ℕ) (ok : Bool) : KeeperState :=
  if cycle % 10 = 0 ∧ ok then { st with refreshes := st.refreshes + 1 } else st

/-- Survival-loop step 5 (lines 464-467): at 5 consecutive failures
call `create_new_session` once and reset the streak to `0` (the reset
happens whether or not the recreation succeeded). -/
def hardResetStep (st : KeeperState) (ok : Bool) : KeeperState :=
  if st.consecutiveFailures ≥ 5 then
    { create_new_session st ok with consecutiveFailures := 0 }
  else st

/-- One iteration of `survival_loop` (lines 416-490), restricted to the
state-changing steps.  `status` is the value of `check_colab_status`,
`rotateOk`/`refreshOk`/`hardOk` the outcomes of the fallible driver
calls of the respective steps.  The loop-level handler (lines 492-496)
is not modelled: every fallible call inside the body
(`create_new_session`, `check_colab_status`, `aggressive_click`,
`inject_ultimate_keepalive`, the refresh) catches its own exceptions
and returns a status value, so the handler is unreachable. -/
def survivalCycle (st : KeeperState) (cycle : ℕ) (status : String)
    (rotateOk refreshOk hardOk : Bool) : KeeperState :=
  hardResetStep
    (refreshStep (statusStep (rotationStep st rotateOk) status) cycle refreshOk)
    hardOk

/-- `check_colab_status` (lines 376-402): the disconnect phrase list
matched against the lowercased page source. -/
def disconnect_indicators : List (List Char) :=
  [("runtime disconnected").toList, ("connect to runtime").toList,
   ("click connect").toList, ("not connected").toList,
   ("disconnected").toList]

/-- `check_colab_status` (lines 376-402).  Input: `none` when
`self.driver` is unset, `some (.error ())` when reading
`driver.page_source` raises, `some (.ok page)` the lowercased page
text.  Output: the status string together with the trace of handle
effects performed. -/
def check_colab_status :
    Option (Except Unit (List Char)) → String × List Effect
  | none => ("no_driver", [])
  | some (.error _) => ("error", [Effect.readPage])
  | some (.ok page) =>
    (if disconnect_indicators.any (fun ind => listSub ind page)
     then "disconnected" else "connected", [Effect.readPage])

theorem statusStep_sessionCounter (st : KeeperState) (status : String) :
    (statusStep st status).sessionCounter = st.sessionCounter := by
  unfold statusStep; split_ifs <;> rfl

theorem statusStep_newSessions (st : KeeperState) (status : String) :
    (statusStep st status).newSessions = st.newSessions := by
  unfold statusStep; split_ifs <;> rfl

theorem refreshStep_sessionCounter (st : KeeperState) (cycle : ℕ) (ok : Bool) :
    (refreshStep st cycle ok).sessionCounter = st.sessionCounter := by
  unfold refreshStep; split_ifs <;> rfl

theorem refreshStep_consecutiveFailures (st : KeeperState) (cycle : ℕ) (ok : Bool) :
    (refreshStep st cycle ok).consecutiveFailures = st.consecutiveFailures := by
  unfold refreshStep; split_ifs <;> rfl

theorem hardResetStep_of_lt {st : KeeperState} (ok : Bool)
    (h : st.consecutiveFailures < 5) : hardResetStep st ok = st := by
  unfold hardResetStep; rw [if_neg]; omega

theorem hardResetStep_failures_lt (st : KeeperState) (ok : Bool) :
    (hardResetStep st ok).consecutiveFailures < 5 := by
  unfold hardResetStep
  split_ifs with h
  · simp
  · omega

end ColabAggressiveKeeper

namespace ColabAggressiveKeeper

/-- C1.  Rotation boundary: `shouldRotate` holds exactly when the
session age strictly exceeds `11 * 3600` seconds (11 h against the 12 h
platform cutoff); a session aged `11*3600 - 1` is not rotated; once the
age exceeds the bound and session creation succeeds, the rotation
resets the age to `0` and increments both the session counter and the
total-session counter by `1`; a full survival cycle in which the age
bound is exceeded (and no hard reset fires) performs exactly one
rotation, incrementing the session counter by exactly `1`. -/
theorem C1_rotation_boundary :
    (∀ age : ℚ, shouldRotate age = true ↔ age > 11 * 3600) ∧
    shouldRotate (11 * 3600 - 1) = false ∧
    (∀ st : KeeperState, st.sessionAge > 11 * 3600 →
      (rotationStep st true).sessionAge = 0 ∧
      (rotationStep st true).sessionCounter = st.sessionCounter + 1 ∧
      (rotationStep st true).newSessions = st.newSessions + 1) ∧
    (∀ st : KeeperState, ¬ st.sessionAge > 11 * 3600 → rotationStep st true = st) ∧
    (∀ (st : KeeperState) (cycle : ℕ) (status : String) (refreshOk hardOk : Bool),
      st.sessionAge > 11 * 3600 →
      (statusStep (create_new_session st true) status).consecutiveFailures < 5 →
      (survivalCycle st cycle status true refreshOk hardOk).sessionCounter
        = st.sessionCounter + 1) := by
  refine ⟨?_, ?_, ?_, ?_, ?_⟩
  · intro age; simp [shouldRotate]
  · norm_num [shouldRotate]
  · intro st h
    have hs : shouldRotate st.sessionAge = true := by
      simp only [shouldRotate, decide_eq_true_eq]; exact h
    simp [rotationStep, hs, create_new_session]
  · intro st h
    have hs : shouldRotate st.sessionAge = false := by
      simp only [shouldRotate, decide_eq_false_iff_not]; exact h
    simp [rotationStep, hs]
  · intro st cycle status refreshOk hardOk h1 h2
    have hs : shouldRotate st.sessionAge = true := by
      simp only [shouldRotate, decide_eq_true_eq]; exact h1
    have hrot : rotationStep st true = create_new_session st true := by
      simp [rotationStep, hs]
    have h2' : (refreshStep (statusStep (create_new_session st true) status)
        cycle refreshOk).consecutiveFailures < 5 := by
      rw [refreshStep_consecutiveFailures]; exact h2
    unfold survivalCycle
    rw [hrot, hardResetStep_of_lt hardOk h2', refreshStep_sessionCounter,
      statusStep_sessionCounter]
    simp [create_new_session]

/-- Witness for C1 at a concrete state: a session aged
`11*3600 + 1` seconds rotates during the cycle and the session counter
goes from `3` to `4`. -/
theorem C1_rotation_boundary_witness :
    (survivalCycle ⟨3, 3, 11 * 3600 + 1, 0, 0, 0⟩ 1 "connected"
        true true true).sessionCounter = 3 + 1 :=
  C1_rotation_boundary.2.2.2.2 ⟨3, 3, 11 * 3600 + 1, 0, 0, 0⟩ 1 "connected"
    true true (by norm_num) (by decide)

/-- C2.  Hard-reset escalation: when the consecutive-failure streak
reaches `5`, the hard-reset step recreates the session exactly once and
resets the streak to `0`; below `5` it does nothing; every survival
cycle ends with a streak strictly below `5`; and in a cycle without an
age rotation whose streak stays below `5` the session counter is
unchanged — failures below the threshold are never fatal to the
session, and the cycle function is total (the loop never terminates on
failures). -/
theorem C2_hard_reset_escalation :
    (∀ (st : KeeperState) (ok : Bool), st.consecutiveFailures ≥ 5 →
      (hardResetStep st ok).consecutiveFailures = 0 ∧
      (hardResetStep st true).sessionCounter = st.sessionCounter + 1) ∧
    (∀ (st : KeeperState) (ok : Bool), st.consecutiveFailures < 5 →
      hardResetStep st ok = st) ∧
    (∀ (st : KeeperState) (cycle : ℕ) (status : String) (rOk fOk hOk : Bool),
      (survivalCycle st cycle status rOk fOk hOk).consecutiveFailures < 5) ∧
    (∀ (st : KeeperState) (cycle : ℕ) (status : String) (rOk fOk hOk : Bool),
      shouldRotate st.sessionAge = false →
      (statusStep st status).consecutiveFailures < 5 →
      (survivalCycle st cycle status rOk fOk hOk).sessionCounter
        = st.sessionCounter) ∧
    (∀ (st : KeeperState) (cycle : ℕ) (status : String) (rOk fOk : Bool),
      shouldRotate st.sessionAge = false →
      (statusStep st status).consecutiveFailures ≥ 5 →
      (survivalCycle st cycle status rOk fOk true).sessionCounter
        = st.sessionCounter + 1 ∧
      (survivalCycle st cycle status rOk fOk true).consecutiveFailures = 0) := by
  refine ⟨?_, ?_, ?_, ?_, ?_⟩
  · intro st ok h
    constructor
    · unfold hardResetStep; rw [if_pos h]
    · unfold hardResetStep; rw [if_pos h]; simp [create_new_session]
  · intro st ok h; exact hardResetStep_of_lt ok h
  · intro st cycle status rOk fOk hOk
    exact hardResetStep_failures_lt _ hOk
  · intro st cycle status rOk fOk hOk hrot h
    have hr : rotationStep st rOk = st := by simp [rotationStep, hrot]
    have h' : (refreshStep (statusStep st status) cycle fOk).consecutiveFailures < 5 := by
      rw [refreshStep_consecutiveFailures]; exact h
    unfold survivalCycle
    rw [hr, hardResetStep_of_lt hOk h', refreshStep_sessionCounter,
      statusStep_sessionCounter]
  · intro st cycle status rOk fOk hrot h
    have hr : rotationStep st rOk = st := by simp [rotationStep, hrot]
    have h' : (refreshStep (statusStep st status) cycle fOk).consecutiveFailures ≥ 5 := by
      rw [refreshStep_consecutiveFailures]; exact h
    unfold survivalCycle
    rw [hr]
    constructor
    · unfold hardResetStep
      rw [if_pos h']
      simp [create_new_session, refreshStep_sessionCounter, statusStep_sessionCounter]
    · unfold hardResetStep
      rw [if_pos h']

/-- Witness for C2 at a concrete state: with `4` prior consecutive
failures an `"error"` cycle pushes the streak to `5`; the hard reset
fires once (session counter `7 → 8`) and the streak resets to `0`. -/
theorem C2_hard_reset_escalation_witness :
    (survivalCycle ⟨7, 7, 0, 0, 0, 4⟩ 2 "error" true true true).sessionCounter
      = 7 + 1 ∧
    (survivalCycle ⟨7, 7, 0, 0, 0, 4⟩ 2 "error" true true true).consecutiveFailures
      = 0 :=
  C2_hard_reset_escalation.2.2.2.2 ⟨7, 7, 0, 0, 0, 4⟩ 2 "error" true true
    (by norm_num [shouldRotate]) (by simp [statusStep])

end ColabAggressiveKeeper

/-! ## ai_colab_supreme.py -/

namespace AiColabSupreme

/-- The per-strategy weight update of `update_strategies_from_ai`
(lines 922-931): the strategy matching the AI's `primary`
recommendation gets `weight = min(weight * 1.2, 0.5)`, every other one
gets `weight = max(weight * 0.8, 0.05)`. -/
def update_weight (w : ℚ) (isPrimary : Bool) : ℚ :=
  if isPrimary then min (w * 1.2) 0.5 else max (w * 0.8) 0.05

/-- `update_strategies_from_ai` (lines 922-931) over the
`(type, weight)` view of `self.strategies`. -/
def update_strategies_from_ai (primary : String)
    (strategies : List (String × ℚ)) : List (String × ℚ) :=
  strategies.map (fun s => (s.1, update_weight s.2 (s.1 == primary)))

/-- Weight trajectory of a strategy that is never the AI's pick
(fails every cycle). -/
def failSeq (w0 : ℚ) : ℕ → ℚ
  | 0 => w0
  | n + 1 => update_weight (failSeq w0 n) false

/-- Weight trajectory of a strategy that is the AI's pick every cycle
(succeeds every cycle). -/
def succSeq (w0 : ℚ) : ℕ → ℚ
  | 0 => w0
  | n + 1 => update_weight (succSeq w0 n) true

theorem update_weight_false (w : ℚ) :
    update_weight w false = max (w * 1.2) 0.5 ∨
    update_weight w false = max (w * 0.8) 0.05 :=
  Or.inr rfl

theorem update_weight_false_eq (w : ℚ) :
    update_weight w false = max (w * 0.8) 0.05 := rfl

theorem update_weight_true_eq (w : ℚ) :
    update_weight w true = min (w * 1.2) 0.5 := rfl

theorem update_false_le {w : ℚ} (h : (0.05 : ℚ) ≤ w) :
    update_weight w false ≤ w := by
  rw [update_weight_false_eq]
  apply max_le
  · nlinarith
  · exact h

theorem update_false_floor (w : ℚ) : (0.05 : ℚ) ≤ update_weight w false := by
  rw [update_weight_false_eq]; exact le_max_right _ _

theorem update_true_ge {w : ℚ} (h0 : (0 : ℚ) ≤ w) (h1 : w ≤ (0.5 : ℚ)) :
    w ≤ update_weight w true := by
  rw [update_weight_true_eq]
  apply le_min
  · nlinarith
  · exact h1

theorem update_true_cap (w : ℚ) : update_weight w true ≤ (0.5 : ℚ) := by
  rw [update_weight_true_eq]; exact min_le_right _ _

theorem failSeq_floor (w0 : ℚ) (h : (0.05 : ℚ) ≤ w0) :
    ∀ n, (0.05 : ℚ) ≤ failSeq w0 n
  | 0 => h
  | _ + 1 => update_false_floor _

theorem succSeq_bounds (w0 : ℚ) (h0 : (0 : ℚ) ≤ w0) (h1 : w0 ≤ (0.5 : ℚ)) :
    ∀ n, (0 : ℚ) ≤ succSeq w0 n ∧ succSeq w0 n ≤ (0.5 : ℚ)
  | 0 => ⟨h0, h1⟩
  | n + 1 => by
    have ih := succSeq_bounds w0 h0 h1 n
    refine ⟨?_, update_true_cap _⟩
    calc (0 : ℚ) ≤ succSeq w0 n := ih.1
    _ ≤ succSeq w0 (n + 1) := update_true_ge ih.1 ih.2


theorem failSeq_one : failSeq (3/10) 1 = 24/100 := by
  show update_weight (3/10) false = 24/100
  rw [update_weight_false_eq, max_eq_left (by norm_num)]
  norm_num

theorem failSeq_two : failSeq (3/10) 2 = 192/1000 := by
  show update_weight (failSeq (3/10) 1) false = 192/1000
  rw [failSeq_one, update_weight_false_eq, max_eq_left (by norm_num)]
  norm_num

theorem failSeq_three : failSeq (3/10) 3 = 1536/10000 := by
  show update_weight (failSeq (3/10) 2) false = 1536/10000
  rw [failSeq_two, update_weight_false_eq, max_eq_left (by norm_num)]
  norm_num

theorem failSeq_four : failSeq (3/10) 4 = 12288/100000 := by
  show update_weight (failSeq (3/10) 3) false = 12288/100000
  rw [failSeq_three, update_weight_false_eq, max_eq_left (by norm_num)]
  norm_num

theorem failSeq_five : failSeq (3/10) 5 = 98304/1000000 := by
  show update_weight (failSeq (3/10) 4) false = 98304/1000000
  rw [failSeq_four, update_weight_false_eq, max_eq_left (by norm_num)]
  norm_num

/-- C3 counterexample: starting from weight `0.3`, the fourth and
fifth consecutive-failure weights are exactly `0.12288` and
`0.098304`, not the claimed `.1229` and `.0983` (which are those
values rounded to four decimal places). -/
theorem C3_counterexample :
    failSeq (3/10) 4 ≠ 1229/10000 ∧ failSeq (3/10) 4 = 12288/100000 ∧
    failSeq (3/10) 5 ≠ 983/10000 ∧ failSeq (3/10) 5 = 98304/1000000 := by
  refine ⟨?_, failSeq_four, ?_, failSeq_five⟩
  · rw [failSeq_four]; norm_num
  · rw [failSeq_five]; norm_num

/-- C3 (amended).  Multiplicative weight update with clamping: a
failure step maps `w` to `max(w * 0.8, 0.05)`, which never drops below
the floor `0.05` and never increases a weight already at or above the
floor; a success step maps `w` to `min(w * 1.2, 0.5)`, which never
exceeds the cap `0.5` and never decreases a weight in `[0, 0.5]`.
Hence an always-failing strategy has a monotonically non-increasing
weight bounded below by `0.05`, an always-succeeding one a
monotonically non-decreasing weight bounded above by `0.5`, and the
trajectory from `0.3` under five failures is exactly
`0.24, 0.192, 0.1536, 0.12288, 0.098304` (the last two rounding to the
claimed `.1229` and `.0983`). -/
theorem C3_weight_update_clamped :
    (∀ w : ℚ, (0.05 : ℚ) ≤ w →
      update_weight w false ≤ w ∧ (0.05 : ℚ) ≤ update_weight w false) ∧
    (∀ w : ℚ, (0 : ℚ) ≤ w → w ≤ (0.5 : ℚ) →
      w ≤ update_weight w true ∧ update_weight w true ≤ (0.5 : ℚ)) ∧
    (∀ w0 : ℚ, (0.05 : ℚ) ≤ w0 → ∀ n,
      failSeq w0 (n + 1) ≤ failSeq w0 n ∧ (0.05 : ℚ) ≤ failSeq w0 (n + 1)) ∧
    (∀ w0 : ℚ, (0 : ℚ) ≤ w0 → w0 ≤ (0.5 : ℚ) → ∀ n,
      succSeq w0 n ≤ succSeq w0 (n + 1) ∧ succSeq w0 (n + 1) ≤ (0.5 : ℚ)) ∧
    (failSeq (3/10) 1 = 24/100 ∧ failSeq (3/10) 2 = 192/1000 ∧
     failSeq (3/10) 3 = 1536/10000 ∧ failSeq (3/10) 4 = 12288/100000 ∧
     failSeq (3/10) 5 = 98304/1000000) ∧
    round ((10000 : ℚ) * failSeq (3/10) 4) = 1229 ∧
    round ((10000 : ℚ) * failSeq (3/10) 5) = 983 := by
  refine ⟨?_, ?_, ?_, ?_,
    ⟨failSeq_one, failSeq_two, failSeq_three, failSeq_four, failSeq_five⟩, ?_, ?_⟩
  · intro w h; exact ⟨update_false_le h, update_false_floor w⟩
  · intro w h0 h1; exact ⟨update_true_ge h0 h1, update_true_cap w⟩
  · intro w0 h n
    exact ⟨update_false_le (failSeq_floor w0 h n), update_false_floor _⟩
  · intro w0 h0 h1 n
    have hb := succSeq_bounds w0 h0 h1 n
    exact ⟨update_true_ge hb.1 hb.2, update_true_cap _⟩
  · rw [failSeq_four]
    norm_num [round_eq]
  · rw [failSeq_five]
    norm_num [round_eq]

/-- Witness for C3 (amended) at `w = 0.3`: one failure step is
non-increasing and stays at or above the floor. -/
theorem C3_weight_update_clamped_witness :
    update_weight (3/10) false ≤ 3/10 ∧ (0.05 : ℚ) ≤ update_weight (3/10) false :=
  C3_weight_update_clamped.1 (3/10) (by norm_num)

end AiColabSupreme

namespace AiColabSupreme

/-- Partial cumulative weight: `csum ws n` is the value of python's
`cumulative` after the first `n` iterations of the selection loop. -/
def csum : List ℚ → ℕ → ℚ
  | _, 0 => 0
  | [], _ + 1 => 0
  | w :: rest, n + 1 => w + csum rest n

/-- The selection loop of `choose_strategy` (lines 1006-1014): walk the
weights accumulating `cumulative`; return the first index with
`rand <= cumulative`; fall through to index `0`
(`return self.strategies[0]`). -/
def chooseFrom : List ℚ → ℚ → ℚ → ℕ → ℕ
  | [], _, _, _ => 0
  | w :: rest, rand, cumulative, idx =>
    if rand ≤ cumulative + w then idx
    else chooseFrom rest rand (cumulative + w) (idx + 1)

/-- `choose_strategy` (lines 996-1014) over the weight view of
`self.strategies` (already filtered to enabled ones by
`load_strategies`, line 499).  `rand` stands for
`np.random.random() * total_weight`; `total_weight == 0` short-circuits
to the first strategy. -/
def choose_strategy (ws : List ℚ) (rand : ℚ) : ℕ :=
  if ws.sum = 0 then 0 else chooseFrom ws rand 0 0

/-- `calculate_sleep_time` (lines 1016-1031) as a function of the
success rate of the cycle's results. -/
def sleepForRate (rate : ℚ) : ℚ :=
  if rate > 9/10 then 180
  else if rate > 7/10 then 150
  else if rate > 1/2 then 120
  else 60

/-- `calculate_sleep_time` (lines 1016-1031): `150` for an empty result
list, otherwise banded by the cycle's success rate. -/
def calculate_sleep_time (results : List Bool) : ℚ :=
  if results = [] then 150
  else sleepForRate ((results.count true : ℚ) / results.length)

theorem csum_zero (ws : List ℚ) : csum ws 0 = 0 := by
  cases ws <;> rfl

theorem csum_succ (w : ℚ) (rest : List ℚ) (n : ℕ) :
    csum (w :: rest) (n + 1) = w + csum rest n := rfl

theorem csum_nonneg (ws : List ℚ) (h : ∀ w ∈ ws, 0 ≤ w) :
    ∀ n, 0 ≤ csum ws n := by
  induction ws with
  | nil => intro n; cases n <;> simp [csum]
  | cons w rest ih =>
    intro n
    cases n with
    | zero => simp [csum_zero]
    | succ m =>
      rw [csum_succ]
      have hw : (0 : ℚ) ≤ w := h w (by simp)
      have hr := ih (fun x hx => h x (by simp [hx])) m
      linarith

theorem csum_le_sum (ws : List ℚ) (h : ∀ w ∈ ws, 0 ≤ w) :
    ∀ n, csum ws n ≤ ws.sum := by
  induction ws with
  | nil => intro n; cases n <;> simp [csum]
  | cons w rest ih =>
    intro n
    have hw : (0 : ℚ) ≤ w := h w (by simp)
    have hrest : ∀ x ∈ rest, (0 : ℚ) ≤ x := fun x hx => h x (by simp [hx])
    cases n with
    | zero =>
      rw [csum_zero, List.sum_cons]
      have := List.sum_nonneg hrest
      linarith
    | succ m =>
      rw [csum_succ, List.sum_cons]
      have := ih hrest m
      linarith

theorem csum_interval_length (ws : List ℚ) :
    ∀ i, i < ws.length → csum ws (i + 1) - csum ws i = ws.getD i 0 := by
  induction ws with
  | nil => simp
  | cons w rest ih =>
    intro i hi
    cases i with
    | zero => simp [csum_succ, csum_zero]
    | succ j =>
      rw [csum_succ, csum_succ, List.getD_cons_succ]
      have := ih j (by simpa using hi)
      linarith

theorem chooseFrom_spec :
    ∀ (ws : List ℚ) (rand c : ℚ) (idx i : ℕ),
      (∀ w ∈ ws, 0 ≤ w) → i < ws.length →
      c + csum ws i < rand → rand ≤ c + csum ws (i + 1) →
      chooseFrom ws rand c idx = idx + i := by
  intro ws
  induction ws with
  | nil =>
    intro rand c idx i _ hi _ _
    exact absurd hi (by simp)
  | cons w rest ih =>
    intro rand c idx i hnn hi hlow hhigh
    cases i with
    | zero =>
      rw [csum_succ, csum_zero, add_zero] at hhigh
      unfold chooseFrom
      rw [if_pos hhigh]
      omega
    | succ j =>
      have hw : (0 : ℚ) ≤ w := hnn w (by simp)
      have hrest : ∀ x ∈ rest, (0 : ℚ) ≤ x := fun x hx => hnn x (by simp [hx])
      have hcs : (0 : ℚ) ≤ csum rest j := csum_nonneg rest hrest j
      rw [csum_succ] at hlow
      have hcond : ¬ rand ≤ c + w := by
        push_neg
        linarith
      unfold chooseFrom
      rw [if_neg hcond]
      have hres := ih rand (c + w) (idx + 1) j hrest (by simpa using hi)
        (by linarith) (by rw [csum_succ] at hhigh; linarith)
      rw [hres]
      omega

theorem choose_strategy_interval (ws : List ℚ) (rand : ℚ) (i : ℕ)
    (hnn : ∀ w ∈ ws, 0 ≤ w) (hi : i < ws.length)
    (hlow : csum ws i < rand) (hhigh : rand ≤ csum ws (i + 1)) :
    choose_strategy ws rand = i := by
  unfold choose_strategy
  rw [if_neg, ← Nat.zero_add i, ← chooseFrom_spec ws rand 0 0 i hnn hi
    (by simpa using hlow) (by simpa using hhigh)]
  intro hzero
  have h1 := csum_nonneg ws hnn i
  have h2 := csum_le_sum ws hnn (i + 1)
  rw [hzero] at h2
  linarith

end AiColabSupreme

/-! ## ai_colab_supreme_final.py -/

namespace AiColabSupremeFinal

/-- The success-rate weight adjustment of `choose_strategy`
(lines 805-812): `success_rate = successCount / max(successCount +
failureCount, 1)` and `adjusted_weight = weight * (0.5 + success_rate *
0.5)`. -/
def adjusted_weight (w : ℚ) (succ fail : ℕ) : ℚ :=
  w * (0.5 + ((succ : ℚ) / ((max (succ + fail) 1 : ℕ) : ℚ)) * 0.5)

/-- The `(strategy, adjusted_weight)` list built by `choose_strategy`
(lines 802-812); each strategy is viewed as
`(weight, successCount, failureCount)`. -/
def adjusted_weights (ss : List (ℚ × ℕ × ℕ)) : List ℚ :=
  ss.map (fun t => adjusted_weight t.1 t.2.1 t.2.2)

/-- `choose_strategy` (lines 783-826) in the advisor-less branch: the
weighted-random selection runs over the *adjusted* weights with
`rand = random.uniform(0, total_weight)`; `total_weight == 0`
short-circuits to the first strategy, and so does loop fall-through;
the selection loop is textually the same as in ai_colab_supreme.py and
is shared (`AiColabSupreme.chooseFrom`). -/
def choose_strategy (ss : List (ℚ × ℕ × ℕ)) (rand : ℚ) : ℕ :=
  if (adjusted_weights ss).sum = 0 then 0
  else AiColabSupreme.chooseFrom (adjusted_weights ss) rand 0 0

theorem adjusted_weight_nonneg {w : ℚ} (h : 0 ≤ w) (succ fail : ℕ) :
    0 ≤ adjusted_weight w succ fail := by
  unfold adjusted_weight
  have h1 : (0 : ℚ) ≤ (succ : ℚ) / ((max (succ + fail) 1 : ℕ) : ℚ) := by
    positivity
  nlinarith

theorem choose_strategy_final_interval (ss : List (ℚ × ℕ × ℕ)) (rand : ℚ)
    (i : ℕ) (hnn : ∀ t ∈ ss, 0 ≤ t.1) (hi : i < ss.length)
    (hlow : AiColabSupreme.csum (adjusted_weights ss) i < rand)
    (hhigh : rand ≤ AiColabSupreme.csum (adjusted_weights ss) (i + 1)) :
    choose_strategy ss rand = i := by
  have hnn' : ∀ w ∈ adjusted_weights ss, (0 : ℚ) ≤ w := by
    intro w hw
    obtain ⟨t, ht, rfl⟩ := List.mem_map.mp hw
    exact adjusted_weight_nonneg (hnn t ht) _ _
  have hlen : i < (adjusted_weights ss).length := by
    simpa [adjusted_weights] using hi
  unfold choose_strategy
  rw [if_neg, ← Nat.zero_add i, ← AiColabSupreme.chooseFrom_spec
    (adjusted_weights ss) rand 0 0 i hnn' hlen
    (by simpa using hlow) (by simpa using hhigh)]
  intro hzero
  have h1 := AiColabSupreme.csum_nonneg (adjusted_weights ss) hnn' i
  have h2 := AiColabSupreme.csum_le_sum (adjusted_weights ss) hnn' (i + 1)
  rw [hzero] at h2
  linarith

end AiColabSupremeFinal

/-- C4 counterexample: two enabled strategies of equal registry weight
`0.5`, the second with one recorded success (success rate `1`), the
first with none (success rate `0`).  The raw total is `W = 1` and the
draw `r = 0.3` lies in the first strategy's raw cumulative-weight
interval `[0, 0.5]`, yet `ai_colab_supreme_final.choose_strategy`
returns strategy `1`, because it samples over the success-rate-adjusted
weights `[0.25, 0.5]`. -/
theorem C4_counterexample :
    AiColabSupremeFinal.choose_strategy [(1/2, 0, 0), (1/2, 1, 0)] (3/10) = 1 ∧
    AiColabSupreme.csum [1/2, 1/2] 0 < 3/10 ∧
    (3/10 : ℚ) ≤ AiColabSupreme.csum [1/2, 1/2] 1 ∧
    (0 : ℚ) ≤ 3/10 ∧ (3/10 : ℚ) < ([(1/2 : ℚ), 1/2]).sum ∧ (1 : ℕ) ≠ 0 := by
  have hadj : AiColabSupremeFinal.adjusted_weights [(1/2, 0, 0), (1/2, 1, 0)]
      = [1/4, 1/2] := by
    unfold AiColabSupremeFinal.adjusted_weights AiColabSupremeFinal.adjusted_weight
    norm_num
  refine ⟨?_, ?_, ?_, by norm_num, ?_, by norm_num⟩
  · unfold AiColabSupremeFinal.choose_strategy
    rw [hadj]
    rw [if_neg (by norm_num)]
    unfold AiColabSupreme.chooseFrom
    rw [if_neg (by norm_num)]
    unfold AiColabSupreme.chooseFrom
    rw [if_pos (by norm_num)]
  · rw [AiColabSupreme.csum_zero]; norm_num
  · show (3/10 : ℚ) ≤ AiColabSupreme.csum [1/2, 1/2] (0 + 1)
    rw [AiColabSupreme.csum_succ, AiColabSupreme.csum_zero]
    norm_num
  · norm_num

/-- C4 (amended).  Proportional weighted-random selection:
`ai_colab_supreme.choose_strategy` returns strategy `i` exactly for
draws in the raw cumulative-weight interval `(csum i, csum (i+1)]`,
whose length is the strategy's weight `wᵢ` (so selection is
proportional to `wᵢ / W`), and returns the first strategy when the
total weight is `0`.  `ai_colab_supreme_final.choose_strategy`
instead samples proportionally to the success-rate-adjusted weights
`wᵢ * (0.5 + 0.5 * successRateᵢ)`: it returns strategy `i` exactly for
draws in the *adjusted* cumulative interval, and the first strategy
when the adjusted total is `0`. -/
theorem C4_weighted_selection :
    (∀ (ws : List ℚ) (rand : ℚ) (i : ℕ), (∀ w ∈ ws, 0 ≤ w) →
      i < ws.length → AiColabSupreme.csum ws i < rand →
      rand ≤ AiColabSupreme.csum ws (i + 1) →
      AiColabSupreme.choose_strategy ws rand = i) ∧
    (∀ (ws : List ℚ) (i : ℕ), i < ws.length →
      AiColabSupreme.csum ws (i + 1) - AiColabSupreme.csum ws i = ws.getD i 0) ∧
    (∀ (ws : List ℚ) (rand : ℚ), ws.sum = 0 →
      AiColabSupreme.choose_strategy ws rand = 0) ∧
    (∀ (ss : List (ℚ × ℕ × ℕ)) (rand : ℚ) (i : ℕ), (∀ t ∈ ss, 0 ≤ t.1) →
      i < ss.length →
      AiColabSupreme.csum (AiColabSupremeFinal.adjusted_weights ss) i < rand →
      rand ≤ AiColabSupreme.csum (AiColabSupremeFinal.adjusted_weights ss) (i + 1) →
      AiColabSupremeFinal.choose_strategy ss rand = i) ∧
    (∀ (ss : List (ℚ × ℕ × ℕ)) (rand : ℚ),
      (AiColabSupremeFinal.adjusted_weights ss).sum = 0 →
      AiColabSupremeFinal.choose_strategy ss rand = 0) := by
  refine ⟨AiColabSupreme.choose_strategy_interval, AiColabSupreme.csum_interval_length,
    ?_, AiColabSupremeFinal.choose_strategy_final_interval, ?_⟩
  · intro ws rand h
    unfold AiColabSupreme.choose_strategy
    rw [if_pos h]
  · intro ss rand h
    unfold AiColabSupremeFinal.choose_strategy
    rw [if_pos h]

/-- Witness for C4 (amended): with enabled weights `[1/2, 1/3, 1/6]`
and draw `0.6` (inside the second cumulative interval `(1/2, 5/6]`),
the ai_colab_supreme selector returns strategy `1`. -/
theorem C4_weighted_selection_witness :
    AiColabSupreme.choose_strategy [1/2, 1/3, 1/6] (6/10) = 1 :=
  C4_weighted_selection.1 [1/2, 1/3, 1/6] (6/10) 1
    (by intro w hw; simp at hw; rcases hw with h | h | h <;> rw [h] <;> norm_num)
    (by norm_num)
    (by rw [show (1 : ℕ) = 0 + 1 from rfl, AiColabSupreme.csum_succ,
          AiColabSupreme.csum_zero]; norm_num)
    (by rw [show (1 + 1 : ℕ) = 1 + 1 from rfl, AiColabSupreme.csum_succ,
          AiColabSupreme.csum_succ, AiColabSupreme.csum_zero]; norm_num)

namespace AiColabSupremeFinal

/-- `update_strategy_stats` (lines 1248-1259): increment the matching
counter, then halve (to `500`) any counter that exceeds `1000`; both
counters go through the cap check on every call. -/
def update_strategy_stats (succ fail : ℕ) (success : Bool) : ℕ × ℕ :=
  let s1 := if success then succ + 1 else succ
  let f1 := if success then fail else fail + 1
  (if s1 > 1000 then 500 else s1, if f1 > 1000 then 500 else f1)

theorem update_stats_true (s f : ℕ) :
    update_strategy_stats s f true
      = (if s + 1 > 1000 then 500 else s + 1, if f > 1000 then 500 else f) := rfl

theorem update_stats_false (s f : ℕ) :
    update_strategy_stats s f false
      = (if s > 1000 then 500 else s, if f + 1 > 1000 then 500 else f + 1) := rfl

end AiColabSupremeFinal

/-- C9.  Counter soft-cap invariant for
`ai_colab_supreme_final.update_strategy_stats`: from any state with
both counters at most `1000` (the reachable states: both start at `0`),
a success leaves `failureCount` unchanged and sets `successCount` to
`successCount + 1`, except that when the increment would exceed the
ceiling `1000` the counter is set to `500` instead (and symmetrically
for a failure); whenever an incremented counter exceeds `1000` it
becomes `500` unconditionally; after every update both counters lie in
`[0, 1001]` (indeed in `[0, 1000]`, which re-establishes the
hypothesis). -/
theorem C9_counter_soft_cap :
    (∀ (s f : ℕ) (b : Bool), s ≤ 1000 → f ≤ 1000 →
      (b = true →
        (AiColabSupremeFinal.update_strategy_stats s f b).2 = f ∧
        (s < 1000 → (AiColabSupremeFinal.update_strategy_stats s f b).1 = s + 1) ∧
        (s = 1000 → (AiColabSupremeFinal.update_strategy_stats s f b).1 = 500)) ∧
      (b = false →
        (AiColabSupremeFinal.update_strategy_stats s f b).1 = s ∧
        (f < 1000 → (AiColabSupremeFinal.update_strategy_stats s f b).2 = f + 1) ∧
        (f = 1000 → (AiColabSupremeFinal.update_strategy_stats s f b).2 = 500)) ∧
      (AiColabSupremeFinal.update_strategy_stats s f b).1 ≤ 1000 ∧
      (AiColabSupremeFinal.update_strategy_stats s f b).2 ≤ 1000 ∧
      (AiColabSupremeFinal.update_strategy_stats s f b).1 ≤ 1001 ∧
      (AiColabSupremeFinal.update_strategy_stats s f b).2 ≤ 1001) ∧
    (∀ (s f : ℕ), s ≥ 1000 →
      (AiColabSupremeFinal.update_strategy_stats s f true).1 = 500) ∧
    (∀ (s f : ℕ), f ≥ 1000 →
      (AiColabSupremeFinal.update_strategy_stats s f false).2 = 500) := by
  refine ⟨?_, ?_, ?_⟩
  · intro s f b hs hf
    cases b
    · rw [AiColabSupremeFinal.update_stats_false s f]
      refine ⟨by simp, fun _ => ⟨?_, fun hlt => ?_, fun heq => ?_⟩, ?_, ?_, ?_, ?_⟩ <;>
        split_ifs <;> simp <;> omega
    · rw [AiColabSupremeFinal.update_stats_true s f]
      refine ⟨fun _ => ⟨?_, fun hlt => ?_, fun heq => ?_⟩, by simp, ?_, ?_, ?_, ?_⟩ <;>
        split_ifs <;> simp <;> omega
  · intro s f h
    rw [AiColabSupremeFinal.update_stats_true s f]
    split_ifs <;> simp <;> omega
  · intro s f h
    rw [AiColabSupremeFinal.update_stats_false s f]
    split_ifs <;> simp <;> omega

/-- Witness for C9 at the ceiling: a success recorded at
`successCount = 1000`, `failureCount = 3` caps the success counter to
`500` and leaves the failure counter at `3`. -/
theorem C9_counter_soft_cap_witness :
    (AiColabSupremeFinal.update_strategy_stats 1000 3 true).2 = 3 ∧
    (AiColabSupremeFinal.update_strategy_stats 1000 3 true).1 = 500 :=
  let h := C9_counter_soft_cap.1 1000 3 true (by norm_num) (by norm_num)
  ⟨(h.1 rfl).1, (h.1 rfl).2.2 rfl⟩

/-! ## ultimate_colab_keeper.py -/

namespace UltimateColabKeeper

/-- Result of one sub-strategy of the click chain.  Each sub-strategy
(`_click_by_selector`, `_click_by_xpath`, `_click_by_javascript`,
`_click_by_class`, lines 427-520) wraps its driver calls in
`try/except: continue` and returns a plain boolean, so an internal
exception is absorbed into a `False` return: `.ok b` is a normal
return, `.error ()` a raised-and-swallowed attempt. -/
def runAttempt : Except Unit Bool → Bool
  | .ok b => b
  | .error _ => false

/-- `click_connect_button` (lines 413-425): walk the ordered strategy
chain, returning `True` at the first strategy that succeeds and `False`
once every strategy has been tried. -/
def click_connect_button : List (Except Unit Bool) → Bool
  | [] => false
  | a :: rest => if runAttempt a then true else click_connect_button rest

/-- Number of chain entries `click_connect_button` actually runs. -/
def attemptsTried : List (Except Unit Bool) → ℕ
  | [] => 0
  | a :: rest => if runAttempt a then 1 else attemptsTried rest + 1

/-- The adaptive wait of `keeper_loop` (lines 724-737):
`random.randint(120, 180)` after a successful keep-alive cycle,
`random.randint(30, 60)` after a failed one; `randint`'s inclusive
uniform draw is modelled by reducing a random seed modulo the span. -/
def keeperWait (success : Bool) (r : ℕ) : ℕ :=
  if success then 120 + r % 61 else 30 + r % 31

/-- Disconnect phrases of `check_connection_status` (lines 563-569). -/
def disconnect_indicators : List (List Char) :=
  [("disconnected").toList, ("connect to").toList,
   ("runtime disconnected").toList, ("not connected").toList]

/-- Connect phrases of `check_connection_status` (lines 571-577). -/
def connect_indicators : List (List Char) :=
  [("connected").toList, ("runtime connected").toList,
   ("gpu").toList, ("tpu").toList]

/-- `check_connection_status` (lines 557-596) on the lowercased page
source: `False` (disconnected) exactly when some disconnect phrase
matches and no connect phrase does, else `True` (connected).  The
fetched `title` is never consulted by the indicator tests. -/
def check_connection_status (page : List Char) : Bool :=
  let hasDisconnect := disconnect_indicators.any (fun i => listSub i page)
  let hasConnect := connect_indicators.any (fun i => listSub i page)
  if hasDisconnect && !hasConnect then false else true

end UltimateColabKeeper

/-! ## ai_colab_supreme_render.py -/

namespace AiColabSupremeRender

/-- The strategy chain of `click_connect_button` (lines 295-318,
sub-strategies lines 320-420): same first-success walk as in
ultimate_colab_keeper.py; each sub-strategy returns a plain boolean
with its exceptions swallowed internally (`except: pass/continue`). -/
def click_chain : List (Except Unit Bool) → Bool
  | [] => false
  | a :: rest =>
    if UltimateColabKeeper.runAttempt a then true else click_chain rest

/-- `click_connect_button` (lines 295-318): returns `False` outright
when no driver is installed, otherwise runs the chain. -/
def click_connect_button (hasDriver : Bool)
    (attempts : List (Except Unit Bool)) : Bool :=
  if hasDriver then click_chain attempts else false

/-- Disconnect phrases of `check_connection` (lines 506-511), already
lowercased as by `indicator.lower()`. -/
def disconnect_indicators : List (List Char) :=
  [("runtime disconnected").toList, ("connect to runtime").toList,
   ("not connected").toList, ("disconnected").toList]

/-- Connect phrases of `check_connection` (line 520). -/
def connect_indicators : List (List Char) :=
  [("connect").toList, ("reconnect").toList, ("connect to runtime").toList]

/-- `check_connection` (lines 502-531).  Input: `.error ()` when
reading `driver.page_source` raises (the `except` branch returns
`False`), otherwise the lowercased page text, plus the outcome of the
`click_connect_button` sub-call it performs when a connect phrase is
seen.  Output: the boolean classification and the trace of handle
effects. -/
def check_connection :
    Except Unit (List Char) → Bool → Bool × List Effect
  | .error _, _ => (false, [])
  | .ok page, clickOutcome =>
    if disconnect_indicators.any (fun i => listSub i page) then
      (false, [Effect.readPage])
    else if connect_indicators.any (fun i => listSub i page) then
      (clickOutcome, [Effect.readPage, Effect.click])
    else (true, [Effect.readPage])

/-- The adaptive interval of `bot_loop` (lines 617-632) for a fixed
base `CHECK_INTERVAL` and a fixed jitter draw in `[-10, 10]`:
`base * 1.5` above `0.9` success rate, `base` above `0.7`, else
`base * 0.7`, then clamped to `[60, 300]`. -/
def renderInterval (base rate jitter : ℚ) : ℚ :=
  let i := (if rate > 9/10 then base * 1.5
            else if rate > 7/10 then base
            else base * 0.7) + jitter
  max 60 (min i 300)

end AiColabSupremeRender

namespace UltimateColabKeeper

theorem click_first_success :
    ∀ (l1 l2 : List (Except Unit Bool)) (a : Except Unit Bool),
      (∀ b ∈ l1, runAttempt b = false) → runAttempt a = true →
      click_connect_button (l1 ++ a :: l2) = true ∧
      attemptsTried (l1 ++ a :: l2) = l1.length + 1 := by
  intro l1
  induction l1 with
  | nil =>
    intro l2 a _ ha
    simp [click_connect_button, attemptsTried, ha]
  | cons b bs ih =>
    intro l2 a h ha
    have hb : runAttempt b = false := h b (by simp)
    have ih' := ih l2 a (fun x hx => h x (by simp [hx])) ha
    constructor
    · simp only [List.cons_append, click_connect_button, hb, Bool.false_eq_true,
        if_false]
      exact ih'.1
    · have h2 := ih'.2
      simp only [List.cons_append, attemptsTried, hb, Bool.false_eq_true,
        if_false, List.length_cons, List.append_eq] at h2 ⊢
      omega

theorem click_false_iff :
    ∀ l, click_connect_button l = false ↔ ∀ a ∈ l, runAttempt a = false := by
  intro l
  induction l with
  | nil => simp [click_connect_button]
  | cons a rest ih =>
    cases ha : runAttempt a with
    | true => simp [click_connect_button, ha]
    | false => simp [click_connect_button, ha, ih]

theorem click_false_attempts :
    ∀ l, click_connect_button l = false → attemptsTried l = l.length := by
  intro l
  induction l with
  | nil => intro _; rfl
  | cons a rest ih =>
    intro h
    cases ha : runAttempt a with
    | true => simp [click_connect_button, ha] at h
    | false =>
      have h' : click_connect_button rest = false := by
        simpa [click_connect_button, ha] using h
      simp [attemptsTried, ha, ih h']

theorem click_error_absorbed :
    ∀ l1 l2, click_connect_button (l1 ++ Except.error () :: l2)
      = click_connect_button (l1 ++ Except.ok false :: l2) := by
  intro l1 l2
  induction l1 with
  | nil => simp [click_connect_button, runAttempt]
  | cons b bs ih => simp [click_connect_button, ih]

end UltimateColabKeeper

theorem renderChain_eq_keeperChain :
    ∀ l, AiColabSupremeRender.click_chain l
      = UltimateColabKeeper.click_connect_button l := by
  intro l
  induction l with
  | nil => rfl
  | cons a rest ih =>
    simp only [AiColabSupremeRender.click_chain,
      UltimateColabKeeper.click_connect_button, ih]

/-- C5.  Fallback-chain execution: `click_connect_button` tries its
strategy chain in order and returns `True` at the first succeeding
attempt — the attempts-tried count is the successful position,
independent of whatever follows the first success; it returns `False`
exactly when every attempt in the chain has failed, in which case every
chain entry was attempted; an attempt whose body raised (absorbed into
a `False` return by the sub-strategy's own handler) behaves exactly
like a returned failure and no exception escapes (the chain's codomain
is a plain boolean); and the render variant with a live driver computes
the same chain result. -/
theorem C5_fallback_chain :
    (∀ (l1 l2 : List (Except Unit Bool)) (a : Except Unit Bool),
      (∀ b ∈ l1, UltimateColabKeeper.runAttempt b = false) →
      UltimateColabKeeper.runAttempt a = true →
      UltimateColabKeeper.click_connect_button (l1 ++ a :: l2) = true ∧
      UltimateColabKeeper.attemptsTried (l1 ++ a :: l2) = l1.length + 1) ∧
    (∀ l, UltimateColabKeeper.click_connect_button l = false ↔
      ∀ a ∈ l, UltimateColabKeeper.runAttempt a = false) ∧
    (∀ l, UltimateColabKeeper.click_connect_button l = false →
      UltimateColabKeeper.attemptsTried l = l.length) ∧
    (∀ l1 l2, UltimateColabKeeper.click_connect_button (l1 ++ Except.error () :: l2)
      = UltimateColabKeeper.click_connect_button (l1 ++ Except.ok false :: l2)) ∧
    (∀ l, AiColabSupremeRender.click_connect_button true l
      = UltimateColabKeeper.click_connect_button l) :=
  ⟨UltimateColabKeeper.click_first_success,
   UltimateColabKeeper.click_false_iff,
   UltimateColabKeeper.click_false_attempts,
   UltimateColabKeeper.click_error_absorbed,
   fun l => renderChain_eq_keeperChain l⟩

/-- Witness for C5: a chain whose first two attempts fail (one by a
swallowed exception) and whose third succeeds returns `True` after
exactly `3` attempts, never reaching the fourth entry. -/
theorem C5_fallback_chain_witness :
    UltimateColabKeeper.click_connect_button
      ([Except.ok false, Except.error ()] ++ Except.ok true ::
        [Except.ok false]) = true ∧
    UltimateColabKeeper.attemptsTried
      ([Except.ok false, Except.error ()] ++ Except.ok true ::
        [Except.ok false]) = 2 + 1 :=
  C5_fallback_chain.1 [Except.ok false, Except.error ()] [Except.ok false]
    (Except.ok true) (by decide) (by decide)

/-- C7.  Adaptive inter-cycle interval is monotone in success:
`ai_colab_supreme.calculate_sleep_time`'s rate banding is a
non-decreasing function of the success rate, returning `180` at full
success and `60` at full failure (for any non-empty result list);
`ultimate_colab_keeper.keeper_loop`'s failure wait (`30..60` s) is
strictly shorter than any success wait (`120..180` s); and
`ai_colab_supreme_render.bot_loop`'s clamped interval is non-decreasing
in the success rate for any non-negative base interval and fixed
jitter. -/
theorem C7_adaptive_interval :
    (∀ r1 r2 : ℚ, r1 ≤ r2 →
      AiColabSupreme.sleepForRate r1 ≤ AiColabSupreme.sleepForRate r2) ∧
    AiColabSupreme.sleepForRate 1 = 180 ∧
    AiColabSupreme.sleepForRate 0 = 60 ∧
    (∀ n : ℕ,
      AiColabSupreme.calculate_sleep_time (List.replicate (n + 1) true) = 180) ∧
    (∀ n : ℕ,
      AiColabSupreme.calculate_sleep_time (List.replicate (n + 1) false) = 60) ∧
    (∀ r1 r2 : ℕ,
      UltimateColabKeeper.keeperWait false r1 < UltimateColabKeeper.keeperWait true r2) ∧
    (∀ base jitter r1 r2 : ℚ, 0 ≤ base → r1 ≤ r2 →
      AiColabSupremeRender.renderInterval base r1 jitter
        ≤ AiColabSupremeRender.renderInterval base r2 jitter) := by
  refine ⟨?_, ?_, ?_, ?_, ?_, ?_, ?_⟩
  · intro r1 r2 h
    unfold AiColabSupreme.sleepForRate
    split_ifs <;> linarith
  · norm_num [AiColabSupreme.sleepForRate]
  · norm_num [AiColabSupreme.sleepForRate]
  · intro n
    unfold AiColabSupreme.calculate_sleep_time
    rw [if_neg (by simp)]
    have hc : (List.replicate (n + 1) true).count true = n + 1 := by simp
    have hl : (List.replicate (n + 1) true).length = n + 1 := by simp
    rw [hc, hl, div_self (by positivity)]
    norm_num [AiColabSupreme.sleepForRate]
  · intro n
    unfold AiColabSupreme.calculate_sleep_time
    rw [if_neg (by simp)]
    have hc : (List.replicate (n + 1) false).count true = 0 := by
      simp [List.count_replicate]
    rw [hc]
    norm_num [AiColabSupreme.sleepForRate]
  · intro r1 r2
    show 30 + r1 % 31 < 120 + r2 % 61
    omega
  · intro base jitter r1 r2 hb h
    simp only [AiColabSupremeRender.renderInterval]
    have key : (if r1 > 9/10 then base * 1.5
          else if r1 > 7/10 then base else base * 0.7)
        ≤ (if r2 > 9/10 then base * 1.5
          else if r2 > 7/10 then base else base * 0.7) := by
      split_ifs <;> linarith
    exact max_le_max le_rfl (min_le_min (by linarith) le_rfl)

/-- Witness for C7: the sleep band at zero success rate is no longer
than the one at full success, and a concrete failure wait is shorter
than a concrete success wait. -/
theorem C7_adaptive_interval_witness :
    AiColabSupreme.sleepForRate 0 ≤ AiColabSupreme.sleepForRate 1 ∧
    UltimateColabKeeper.keeperWait false 17 < UltimateColabKeeper.keeperWait true 17 :=
  ⟨C7_adaptive_interval.1 0 1 (by norm_num), C7_adaptive_interval.2.2.2.2.2.1 17 17⟩

namespace UltimateColabKeeper

theorem connected_check_true (page : List Char)
    (h : listSub (("connected").toList) page = true) :
    check_connection_status page = true := by
  have hC : connect_indicators.any (fun i => listSub i page) = true :=
    List.any_eq_true.mpr
      ⟨("connected").toList, by simp [connect_indicators], h⟩
  simp only [check_connection_status, hC, Bool.not_true, Bool.and_false,
    Bool.false_eq_true, if_false]

theorem check_false_characterization (page : List Char) :
    check_connection_status page = false ↔
      (listSub (("connect to").toList) page = true ∧
       listSub (("connected").toList) page = false ∧
       listSub (("gpu").toList) page = false ∧
       listSub (("tpu").toList) page = false) := by
  have hsub1 : listSub (("connected").toList) (("disconnected").toList) = true := by
    decide
  have hsub3 : listSub (("connected").toList) (("not connected").toList) = true := by
    decide
  have hsub4 : listSub (("connected").toList) (("runtime connected").toList) = true := by
    decide
  have hsub5 : listSub (("connected").toList)
      (("runtime disconnected").toList) = true := by decide
  constructor
  · intro h
    have hC : connect_indicators.any (fun i => listSub i page) = false := by
      cases hx : connect_indicators.any (fun i => listSub i page) with
      | false => rfl
      | true =>
        exfalso
        have : check_connection_status page = true := by
          simp only [check_connection_status, hx, Bool.not_true, Bool.and_false,
            Bool.false_eq_true, if_false]
        rw [h] at this
        exact Bool.false_ne_true this
    have hD : disconnect_indicators.any (fun i => listSub i page) = true := by
      cases hx : disconnect_indicators.any (fun i => listSub i page) with
      | true => rfl
      | false =>
        exfalso
        have : check_connection_status page = true := by
          simp only [check_connection_status, hx, Bool.false_and,
            Bool.false_eq_true, if_false]
        rw [h] at this
        exact Bool.false_ne_true this
    have hCs : ∀ i ∈ connect_indicators, listSub i page = false := by
      intro i hi
      cases hx : listSub i page with
      | false => rfl
      | true =>
        exfalso
        have : connect_indicators.any (fun j => listSub j page) = true :=
          List.any_eq_true.mpr ⟨i, hi, hx⟩
        rw [hC] at this
        exact Bool.false_ne_true this
    have hcn : listSub (("connected").toList) page = false :=
      hCs _ (by simp [connect_indicators])
    have hgpu : listSub (("gpu").toList) page = false :=
      hCs _ (by simp [connect_indicators])
    have htpu : listSub (("tpu").toList) page = false :=
      hCs _ (by simp [connect_indicators])
    obtain ⟨i, hi, hip⟩ := List.any_eq_true.mp hD
    have hctp : listSub (("connect to").toList) page = true := by
      simp only [disconnect_indicators, List.mem_cons, List.not_mem_nil,
        or_false] at hi
      rcases hi with rfl | rfl | rfl | rfl
      · exact absurd (listSub_trans hsub1 hip)
          (by rw [hcn]; exact Bool.false_ne_true)
      · exact hip
      · exact absurd (listSub_trans hsub5 hip)
          (by rw [hcn]; exact Bool.false_ne_true)
      · exact absurd (listSub_trans hsub3 hip)
          (by rw [hcn]; exact Bool.false_ne_true)
    exact ⟨hctp, hcn, hgpu, htpu⟩
  · rintro ⟨hct, hcn, hgpu, htpu⟩
    have hrc : listSub (("runtime connected").toList) page = false := by
      cases hx : listSub (("runtime connected").toList) page with
      | false => rfl
      | true =>
        exfalso
        have := listSub_trans hsub4 hx
        rw [hcn] at this
        exact Bool.false_ne_true this
    have hD : disconnect_indicators.any (fun i => listSub i page) = true :=
      List.any_eq_true.mpr
        ⟨("connect to").toList, by simp [disconnect_indicators], hct⟩
    have hC : connect_indicators.any (fun i => listSub i page) = false := by
      cases hx : connect_indicators.any (fun i => listSub i page) with
      | false => rfl
      | true =>
        exfalso
        obtain ⟨i, hi, hip⟩ := List.any_eq_true.mp hx
        simp only [connect_indicators, List.mem_cons, List.not_mem_nil,
          or_false] at hi
        rcases hi with rfl | rfl | rfl | rfl
        · rw [hcn] at hip; exact Bool.false_ne_true hip
        · rw [hrc] at hip; exact Bool.false_ne_true hip
        · rw [hgpu] at hip; exact Bool.false_ne_true hip
        · rw [htpu] at hip; exact Bool.false_ne_true hip
    simp only [check_connection_status, hD, hC, Bool.not_false, Bool.and_true,
      if_true]

end UltimateColabKeeper

/-- C10.  The `ultimate_colab_keeper.check_connection_status` classifier
never reports Disconnected for a page that says so with a standard
phrase: any page containing `"disconnected"`, `"runtime disconnected"`
or `"not connected"` is classified `True` (connected), because each of
those phrases contains the connect indicator `"connected"` as a
substring; the `False` (disconnected) branch is reachable exactly for
pages containing `"connect to"` while containing none of
`"connected"`, `"gpu"`, `"tpu"`. -/
theorem C10_connection_classifier :
    (∀ page, listSub (("disconnected").toList) page = true →
      UltimateColabKeeper.check_connection_status page = true) ∧
    (∀ page, listSub (("runtime disconnected").toList) page = true →
      UltimateColabKeeper.check_connection_status page = true) ∧
    (∀ page, listSub (("not connected").toList) page = true →
      UltimateColabKeeper.check_connection_status page = true) ∧
    (∀ page, UltimateColabKeeper.check_connection_status page = false ↔
      (listSub (("connect to").toList) page = true ∧
       listSub (("connected").toList) page = false ∧
       listSub (("gpu").toList) page = false ∧
       listSub (("tpu").toList) page = false)) := by
  have hsub1 : listSub (("connected").toList) (("disconnected").toList) = true := by
    decide
  have hsub2 : listSub (("connected").toList)
      (("runtime disconnected").toList) = true := by decide
  have hsub3 : listSub (("connected").toList) (("not connected").toList) = true := by
    decide
  refine ⟨?_, ?_, ?_, UltimateColabKeeper.check_false_characterization⟩
  · intro page h
    exact UltimateColabKeeper.connected_check_true page (listSub_trans hsub1 h)
  · intro page h
    exact UltimateColabKeeper.connected_check_true page (listSub_trans hsub2 h)
  · intro page h
    exact UltimateColabKeeper.connected_check_true page (listSub_trans hsub3 h)

/-- Witness for C10: the page text `"runtime disconnected - reconnect"`
contains the disconnect phrase `"disconnected"` yet is classified
`True` (connected), and the page `"connect to a runtime"` is the shape
that reaches the `False` branch. -/
theorem C10_connection_classifier_witness :
    UltimateColabKeeper.check_connection_status
      (("runtime disconnected - reconnect").toList) = true ∧
    UltimateColabKeeper.check_connection_status
      (("connect to a runtime").toList) = false :=
  ⟨C10_connection_classifier.1 (("runtime disconnected - reconnect").toList)
    (by decide),
   (C10_connection_classifier.2.2.2 (("connect to a runtime").toList)).mpr
    ⟨by decide, by decide, by decide, by decide⟩⟩

/-- C8 counterexample: `ai_colab_supreme_render.check_connection` is
not read-only and has no distinct Errored result.  On the page
`"please connect"` (a connect indicator, no disconnect indicator) it
invokes `click_connect_button` — a click effect on the handle — and on
an exception while reading the page it returns `False`, the very same
value it returns for a genuinely disconnected page, instead of an
Errored classification. -/
theorem C8_counterexample :
    Effect.click ∈
      (AiColabSupremeRender.check_connection
        (Except.ok (("please connect").toList)) true).2 ∧
    (AiColabSupremeRender.check_connection (Except.error ()) true).1 = false ∧
    (AiColabSupremeRender.check_connection (Except.error ()) true).1 =
      (AiColabSupremeRender.check_connection
        (Except.ok (("runtime disconnected").toList)) true).1 := by
  refine ⟨?_, rfl, ?_⟩ <;> decide

/-- C8 (amended).  Health classification:
`colab_aggressive_keeper.check_colab_status` is read-only — its handle
effect trace never contains a click — and returns the `"error"`
classification on an exception.  `ai_colab_supreme_render.check_connection`,
however, is read-only only on pages showing a disconnect indicator or
no indicator at all: on a page with a connect indicator and no
disconnect indicator it performs a click (its result is then the click
outcome), and on an exception it returns `False` — indistinguishable
from the Disconnected classification — rather than a distinct Errored
value. -/
theorem C8_health_classification :
    (∀ d, Effect.click ∉ (ColabAggressiveKeeper.check_colab_status d).2) ∧
    (ColabAggressiveKeeper.check_colab_status (some (Except.error ()))).1
      = "error" ∧
    (∀ (page : List Char) (c : Bool),
      AiColabSupremeRender.disconnect_indicators.any
        (fun i => listSub i page) = false →
      AiColabSupremeRender.connect_indicators.any
        (fun i => listSub i page) = true →
      (AiColabSupremeRender.check_connection (Except.ok page) c).2
        = [Effect.readPage, Effect.click] ∧
      (AiColabSupremeRender.check_connection (Except.ok page) c).1 = c) ∧
    (∀ (page : List Char) (c : Bool),
      AiColabSupremeRender.disconnect_indicators.any
        (fun i => listSub i page) = true →
      AiColabSupremeRender.check_connection (Except.ok page) c
        = (false, [Effect.readPage])) ∧
    (∀ c : Bool,
      (AiColabSupremeRender.check_connection (Except.error ()) c).1 = false) := by
  refine ⟨?_, rfl, ?_, ?_, ?_⟩
  · intro d
    match d with
    | none => simp [ColabAggressiveKeeper.check_colab_status]
    | some (.error _) => simp [ColabAggressiveKeeper.check_colab_status]
    | some (.ok page) => simp [ColabAggressiveKeeper.check_colab_status]
  · intro page c hD hC
    simp [AiColabSupremeRender.check_connection, hD, hC]
  · intro page c hD
    simp [AiColabSupremeRender.check_connection, hD]
  · intro c
    rfl

/-- Witness for C8 (amended) on the page `"connect now"`: no disconnect
indicator, the connect indicator `"connect"` matches, so the
classification performs a read and then a click. -/
theorem C8_health_classification_witness :
    (AiColabSupremeRender.check_connection
      (Except.ok (("connect now").toList)) true).2
      = [Effect.readPage, Effect.click] ∧
    (AiColabSupremeRender.check_connection
      (Except.ok (("connect now").toList)) true).1 = true :=
  C8_health_classification.2.2.1 (("connect now").toList) true
    (by decide) (by decide)

/-! ## The Strategy Selector of spec §4.2

No file under `src/` implements a `LoginRequired` health state or a
login-recovery strategy (no selector in the repository consults a login
state), so the forced-login path of the Selector is modelled from the
spec. -/

namespace SpecModel

/-- Health states of §4.1. -/
inductive HealthState where
  | connected
  | disconnected
  | loginRequired
  | errored
  | unknown
  deriving Repr, DecidableEq

/-- A registered strategy as the Selector sees it (§4.2): an id, a
mutable weight, and whether it is the login-recovery strategy. -/
structure SpecStrategy where
  id : ℕ
  weight : ℚ
  isLoginRecovery : Bool
  deriving Repr, DecidableEq

/-- Modelled from the spec: §4.2 step 3, weighted-random sampling over
the registered strategies proportional to weight, first strategy when
the total weight is zero (the sampling loop reuses the embedding of
ai_colab_supreme's `choose_strategy`, which implements exactly this
step). -/
def selectWeighted (strategies : List SpecStrategy) (rand : ℚ) :
    Option SpecStrategy :=
  strategies.get? (AiColabSupreme.choose_strategy
    (strategies.map (fun s => s.weight)) rand)

/-- Modelled from the spec: `Select(state, strategies, advisor?)` of
§4.2 without an Advisor — step 1: if the state is `LoginRequired`,
force the login-recovery strategy (overriding all weights) when one is
registered, else fall through; otherwise (and on fall-through) step 3's
weighted sampling. -/
def select (state : HealthState) (strategies : List SpecStrategy)
    (rand : ℚ) : Option SpecStrategy :=
  if state = HealthState.loginRequired then
    match strategies.find? (fun s => s.isLoginRecovery) with
    | some s => some s
    | none => selectWeighted strategies rand
  else selectWeighted strategies rand

end SpecModel

/-- C6.  Forced login path (modelled from the spec): whenever the
health state is `LoginRequired` and a login-recovery strategy is
registered, `select` returns that strategy for every weight assignment
and every random draw — the weights are overridden, not sampled. -/
theorem C6_forced_login_path :
    ∀ (strategies : List SpecModel.SpecStrategy) (rand : ℚ)
      (s : SpecModel.SpecStrategy),
      strategies.find? (fun t => t.isLoginRecovery) = some s →
      SpecModel.select SpecModel.HealthState.loginRequired strategies rand
        = some s := by
  intro strategies rand s h
  unfold SpecModel.select
  rw [if_pos rfl, h]

/-- Witness for C6: with a heavy non-login strategy registered first,
the login-recovery strategy (weight `1/100`) is still forced. -/
theorem C6_forced_login_path_witness :
    SpecModel.select SpecModel.HealthState.loginRequired
      [⟨0, 1/2, false⟩, ⟨1, 1/100, true⟩] (1/4)
      = some ⟨1, 1/100, true⟩ :=
  C6_forced_login_path [⟨0, 1/2, false⟩, ⟨1, 1/100, true⟩] (1/4)
    ⟨1, 1/100, true⟩ rfl
